import Mathlib

/-!
Shallow embedding of the holochain-rust core excerpts under verification:
the network get-entry reducers (`core/src/network/reducers/get_entry.rs`),
the EAV store (`core_types/src/eav.rs`), the validation-package builder
(`core/src/nucleus/actions/build_validation_package.rs`) and the hold-link
workflow (`core/src/workflows/hold_link.rs`).

Rust `HashMap<Address, V>` is embedded as an association list with
replace-on-insert semantics, Rust `HashSet` as a duplicate-free list, and
fallible Rust functions return `Except HolochainError`.
-/

namespace Holochain

abbrev Address := String

/-- The error kinds of `HolochainError` used by the embedded code
(`core_types/src/error.rs`, spec section 7). -/
inductive HolochainError where
  | ErrorGeneric (reason : String)
  | Timeout
  | ValidationFailed (reason : String)
  | ConfigError (reason : String)
deriving DecidableEq, Repr

deriving instance DecidableEq for Except

/-- `HashMap::get`: the value bound to `k`, embedded on an association list. -/
def lookupKey {V : Type} (m : List (Address × V)) (k : Address) : Option V :=
  match m with
  | [] => none
  | (k₀, v₀) :: rest => if k₀ = k then some v₀ else lookupKey rest k

/-- `HashMap::insert`: bind `k` to `v`, replacing an existing binding. -/
def insertKey {V : Type} (m : List (Address × V)) (k : Address) (v : V) :
    List (Address × V) :=
  match m with
  | [] => [(k, v)]
  | (k₀, v₀) :: rest =>
      if k₀ = k then (k, v) :: rest else (k₀, v₀) :: insertKey rest k v

theorem lookupKey_insertKey_self {V : Type} (m : List (Address × V))
    (k : Address) (v : V) : lookupKey (insertKey m k v) k = some v := by
  induction m with
  | nil => simp [insertKey, lookupKey]
  | cons head rest ih =>
      obtain ⟨k₀, v₀⟩ := head
      by_cases hk : k₀ = k
      · simp [insertKey, lookupKey, hk]
      · simp [insertKey, lookupKey, hk, ih]

theorem lookupKey_insertKey_other {V : Type} (m : List (Address × V))
    (k k' : Address) (v : V) (hne : k' ≠ k) :
    lookupKey (insertKey m k v) k' = lookupKey m k' := by
  induction m with
  | nil => simp [insertKey, lookupKey, Ne.symm hne]
  | cons head rest ih =>
      obtain ⟨k₀, v₀⟩ := head
      by_cases hk : k₀ = k
      · subst hk
        simp [insertKey, lookupKey, Ne.symm hne]
      · simp [insertKey, lookupKey, hk, ih]

/-! ## Entries, entry types, chain headers -/

/-- Modelled from the spec: an entry type carries a name and whether its
entries may be published to the DHT (`EntryType::can_publish`, whose
definition is outside the given sources; spec sections 4.3 and 8, P6). -/
structure EntryType where
  name : String
  publishable : Bool
deriving DecidableEq, Repr

def EntryType.can_publish (t : EntryType) : Bool := t.publishable

/-- `LinkAdd` payload (`link_add.rs`, outside the given sources): the fields
are opaque to the embedded code except for being carried along. -/
structure LinkAddData where
  base : Address
  target : Address
  tag : String
deriving DecidableEq, Repr

/-- The `Entry` variants the embedded code distinguishes: a link-add entry
and any other (application) entry. -/
inductive Entry where
  | App (entry_type : EntryType) (content : String)
  | LinkAdd (link_add : LinkAddData)
deriving DecidableEq, Repr

/-- Modelled from the spec: `Entry::entry_type`; a link-add entry has the
system link-add entry type, which is publishable. -/
def Entry.entry_type : Entry → EntryType
  | .App t _ => t
  | .LinkAdd _ => ⟨"%link_add", true⟩

/-- `ChainHeader` restricted to the fields the embedded code reads:
the entry type and the entry address (`chain_header.rs`). -/
structure ChainHeader where
  entry_type : EntryType
  entry_address : Address
deriving DecidableEq, Repr

/-- `EntryWithMeta` (`core_types/src/entry.rs`): an entry plus CRUD
metadata; only its identity matters to the embedded reducers. -/
structure EntryWithMeta where
  entry : Entry
  crud_status : String
  maybe_crud_link : Option Address
deriving DecidableEq, Repr

/-! ## Network state and the get-entry reducers
(`core/src/network/reducers/get_entry.rs`) -/

/-- One stored get-entry result: `Option<Result<Option<EntryWithMeta>,
HolochainError>>`. `none` = requested but pending; `some r` = terminal. -/
abbrev GetEntryResult := Option (Except HolochainError (Option EntryWithMeta))

/-- `NetworkState` restricted to the fields the get-entry reducers read
(spec section 3). -/
structure NetworkState where
  dna_address : Option Address
  agent_id : Option String
  get_entry_with_meta_results : List (Address × GetEntryResult)
deriving DecidableEq

/-- Modelled from the spec: `NetworkState::initialized` (its definition is
outside the given sources) fails with `Generic("Network not initialized")`
when `dna_address` or `agent_id` is absent. -/
def NetworkState.initialized (s : NetworkState) : Except HolochainError Unit :=
  if s.dna_address.isSome && s.agent_id.isSome then Except.ok ()
  else Except.error (.ErrorGeneric "Network not initialized")

/-- Modelled from the spec: `send` hands a `GetDhtData` message to the
network transport, an external collaborator (spec section 6); for the
initialized state it succeeds and leaves the embedded state untouched. -/
def send (_network_state : NetworkState) : Except HolochainError Unit :=
  Except.ok ()

/-- `inner` of `get_entry.rs`: check initialization, then send the
`GetDht` request. -/
def inner (network_state : NetworkState) (_address : Address) :
    Except HolochainError Unit :=
  match network_state.initialized with
  | Except.error e => Except.error e
  | Except.ok () => send network_state

/-- `reduce_get_entry`: record the request as pending (`none`) on success
of `inner`, or as a terminal error on failure. -/
def reduce_get_entry (network_state : NetworkState) (address : Address) :
    NetworkState :=
  let result : GetEntryResult :=
    match inner network_state address with
    | Except.ok () => none
    | Except.error err => some (Except.error err)
  { network_state with
      get_entry_with_meta_results :=
        insertKey network_state.get_entry_with_meta_results address result }

/-- `reduce_get_entry_timeout`: return unchanged when the address was never
requested; overwrite with `Timeout` only when the stored result is still
pending; leave a terminal result alone. -/
def reduce_get_entry_timeout (network_state : NetworkState)
    (address : Address) : NetworkState :=
  match lookupKey network_state.get_entry_with_meta_results address with
  | none => network_state
  | some none =>
      { network_state with
          get_entry_with_meta_results :=
            insertKey network_state.get_entry_with_meta_results address
              (some (Except.error HolochainError.Timeout)) }
  | some (some _) => network_state

/-! ## EAV store (`core_types/src/eav.rs`) -/

abbrev Entity := Address
abbrev Attribute := String
abbrev Value := Address

/-- The character class of the attribute-validation regex
`[/:*?<>"'\\|+]`; the quote, apostrophe and backslash are written by
code point (34, 39, 92). -/
def reservedAttributeChars : List Char :=
  ['/', ':', '*', '?', '<', '>', Char.ofNat 34, Char.ofNat 39,
   Char.ofNat 92, '|', '+']

/-- `validate_attribute`: reject an attribute in which the regex finds one
of the reserved characters. -/
def validate_attribute (attr : Attribute) : Except HolochainError Unit :=
  if !(attr.data.any (fun c => reservedAttributeChars.contains c)) then
    Except.ok ()
  else
    Except.error (.ErrorGeneric "Attribute name invalid")

/-- `EntityAttributeValue`: an (entity, attribute, value) triple. -/
structure EntityAttributeValue where
  entity : Entity
  attr : Attribute
  value : Value
deriving DecidableEq, Repr

/-- `EntityAttributeValue::new`: validate the attribute, then build the
triple. -/
def EntityAttributeValue.new (entity : Entity) (attr : Attribute)
    (value : Value) : Except HolochainError EntityAttributeValue :=
  match validate_attribute attr with
  | Except.error e => Except.error e
  | Except.ok () => Except.ok ⟨entity, attr, value⟩

/-- `ExampleEntityAttributeValueStorageNonSync`: the backing `HashSet`,
embedded as a duplicate-free list. -/
structure ExampleEntityAttributeValueStorageNonSync where
  storage : List EntityAttributeValue
deriving DecidableEq, Repr

/-- `unthreadable_add_eav`: `HashSet::insert` keeps the set unchanged when
an equal element is already present; the call always returns `Ok(())`. -/
def unthreadable_add_eav (s : ExampleEntityAttributeValueStorageNonSync)
    (eav : EntityAttributeValue) :
    ExampleEntityAttributeValueStorageNonSync × Except HolochainError Unit :=
  (⟨if eav ∈ s.storage then s.storage else s.storage ++ [eav]⟩, Except.ok ())

/-- `unthreadable_fetch_eav`: three filters, one per optional constraint,
over the stored set. -/
def unthreadable_fetch_eav (s : ExampleEntityAttributeValueStorageNonSync)
    (entity : Option Entity) (attr : Option Attribute)
    (value : Option Value) :
    Except HolochainError (List EntityAttributeValue) :=
  Except.ok
    (((s.storage.filter (fun eav =>
          match entity with
          | some e => eav.entity == e
          | none => true)).filter (fun eav =>
          match attr with
          | some a => eav.attr == a
          | none => true)).filter (fun eav =>
          match value with
          | some v => eav.value == v
          | none => true))

/-! ## Validation-package builder
(`core/src/nucleus/actions/build_validation_package.rs`) -/

/-- `ValidationPackageDefinition` (`core_types/src/validation.rs`): the
shape of package the application's callback declares for an entry type. -/
inductive ValidationPackageDefinition where
  | Entry
  | ChainEntries
  | ChainHeaders
  | ChainFull
  | Custom (s : String)
deriving DecidableEq, Repr

/-- `ValidationPackage` (spec section 3): chain header plus the optional
entry, header and custom payloads. -/
structure ValidationPackage where
  chain_header : Option ChainHeader
  source_chain_entries : Option (List Entry)
  source_chain_headers : Option (List ChainHeader)
  custom : Option String
deriving DecidableEq, Repr

/-- Modelled from the spec: `ValidationPackage::only_header` (defined
outside the given sources) populates the header and nothing else; the
tests of `build_validation_package.rs` pin this shape. -/
def ValidationPackage.only_header (header : ChainHeader) : ValidationPackage :=
  ⟨some header, none, none, none⟩

/-- `CallbackResult` as matched by `build_validation_package`: the
application's validation-package-definition callback outcome. -/
inductive CallbackResult where
  | Fail (error_string : String)
  | ValidationPackageDefinition (def_ : ValidationPackageDefinition)
  | NotImplemented
deriving DecidableEq, Repr

/-- `all_public_chain_headers`: the chain headers whose entry type permits
publication, in chain order. -/
def all_public_chain_headers (chain : List ChainHeader) : List ChainHeader :=
  chain.filter (fun chain_header => chain_header.entry_type.can_publish)

/-- `all_public_chain_entries`: the entries of the publishable chain
headers, fetched from the CAS by entry address.  The Rust code panics when
the CAS lacks an entry for an existing header; the embedding drops such a
header instead of diverging. -/
def all_public_chain_entries (chain : List ChainHeader)
    (cas : List (Address × Entry)) : List Entry :=
  (chain.filter (fun chain_header => chain_header.entry_type.can_publish)).filterMap
    (fun chain_header => lookupKey cas chain_header.entry_address)

/-- The package-assembly match of `build_validation_package` (the
`and_then` over the callback's package definition). -/
def assemble_validation_package (entry_header : ChainHeader)
    (chain : List ChainHeader) (cas : List (Address × Entry)) :
    ValidationPackageDefinition → ValidationPackage
  | .Entry => ValidationPackage.only_header entry_header
  | .ChainEntries =>
      { ValidationPackage.only_header entry_header with
          source_chain_entries := some (all_public_chain_entries chain cas) }
  | .ChainHeaders =>
      { ValidationPackage.only_header entry_header with
          source_chain_headers := some (all_public_chain_headers chain) }
  | .ChainFull =>
      { ValidationPackage.only_header entry_header with
          source_chain_entries := some (all_public_chain_entries chain cas),
          source_chain_headers := some (all_public_chain_headers chain) }
  | .Custom string =>
      { ValidationPackage.only_header entry_header with
          custom := some string }

/-- An apostrophe, written by code point. -/
def squote : String := String.singleton (Char.ofNat 39)

/-- `build_validation_package`, with its asynchronous environment made
explicit: `dna` stands for `get_zome_name_for_entry_type` (an association
list from entry-type name to zome name, modelled from the spec since the
DNA type is outside the given sources), `entry_header` for the located or
synthesized chain header, `chain`/`cas` for the local chain and CAS, and
`callback_result` for the application callback's answer.  The value is the
result the returned future eventually resolves to; the `none` branch is
the immediately failed future, which touches none of the environment. -/
def build_validation_package (dna : List (String × String)) (entry : Entry)
    (entry_header : ChainHeader) (chain : List ChainHeader)
    (cas : List (Address × Entry)) (callback_result : CallbackResult) :
    Except HolochainError ValidationPackage :=
  match lookupKey dna entry.entry_type.name with
  | none =>
      Except.error (.ValidationFailed
        ("Unknown entry type: " ++ squote ++ entry.entry_type.name ++ squote))
  | some _ =>
      match callback_result with
      | .Fail error_string => Except.error (.ErrorGeneric error_string)
      | .ValidationPackageDefinition def_ =>
          Except.ok (assemble_validation_package entry_header chain cas def_)
      | .NotImplemented =>
          Except.error (.ErrorGeneric
            ("ValidationPackage callback not implemented for "
              ++ entry.entry_type.name))

/-! ## Hold-link workflow (`core/src/workflows/hold_link.rs`) -/

/-- Modelled from the spec: the `?` conversion of a bare reason string into
a `HolochainError` yields the `Generic` kind (spec section 7). -/
def HolochainError.fromString (s : String) : HolochainError :=
  HolochainError.ErrorGeneric s

/-- `hold_link_workflow`, with the results of its awaited stages made
explicit: `get_validation_package_result` is what
`get_validation_package(header)` resolves to, `validate_result` what
`validate_entry` resolves to and `add_link_result` what `add_link`
resolves to (those stage functions are outside the given sources).  The
match on the entry and the handling of a missing package are the workflow
body of `hold_link.rs`. -/
def hold_link_workflow (entry : Entry)
    (get_validation_package_result :
      Except HolochainError (Option ValidationPackage))
    (validate_result : Except HolochainError Unit)
    (add_link_result : Except HolochainError Unit) :
    Except HolochainError Unit :=
  match entry with
  | Entry.LinkAdd _link_add =>
      match get_validation_package_result with
      | Except.error e => Except.error e
      | Except.ok maybe_validation_package =>
          match maybe_validation_package with
          | none =>
              Except.error (HolochainError.fromString
                "Could not get validation package from source")
          | some _validation_package =>
              match validate_result with
              | Except.error e => Except.error e
              | Except.ok () => add_link_result
  | _ =>
      Except.error (.ErrorGeneric
        "hold_link_workflow expects entry to be an Entry::LinkAdd")

/-! ## Theorems about the get-entry reducers -/

/-- Claim C1: when the get-entry result for an address is pending
(`Some(None)`), `GetEntryTimeout` resolves it to the `Timeout` error, and
when the result is already terminal (`Some(Some(_))`), `GetEntryTimeout`
leaves it unchanged — a timeout never overwrites a resolved entry. -/
theorem timeout_resolves_pending_preserves_terminal (s : NetworkState)
    (a : Address) :
    (lookupKey s.get_entry_with_meta_results a = some none →
      lookupKey (reduce_get_entry_timeout s a).get_entry_with_meta_results a
        = some (some (Except.error HolochainError.Timeout))) ∧
    (∀ r : Except HolochainError (Option EntryWithMeta),
      lookupKey s.get_entry_with_meta_results a = some (some r) →
      lookupKey (reduce_get_entry_timeout s a).get_entry_with_meta_results a
        = some (some r)) := by
  constructor
  · intro h
    simp [reduce_get_entry_timeout, h, lookupKey_insertKey_self]
  · intro r h
    simp [reduce_get_entry_timeout, h]

/-- An example `EntryWithMeta`, as a positive `HandleGetResult` would
store. -/
def ewmExample : EntryWithMeta :=
  ⟨Entry.App ⟨"testEntryType", true⟩ "test entry value", "Live", none⟩

/-- A network state whose get-entry result for address `"a"` is already
terminal (a positive result). -/
def terminalExampleState : NetworkState :=
  ⟨some "dna", some "alice", [("a", some (Except.ok (some ewmExample)))]⟩

/-- Claim C1 at concrete inputs: a pending result for `"a"` becomes the
`Timeout` error, and a terminal result for `"a"` survives the timeout. -/
theorem timeout_resolves_pending_preserves_terminal_at_input :
    lookupKey (reduce_get_entry_timeout
        ⟨some "dna", some "alice", [("a", none)]⟩
        "a").get_entry_with_meta_results "a"
      = some (some (Except.error HolochainError.Timeout)) ∧
    lookupKey (reduce_get_entry_timeout terminalExampleState
        "a").get_entry_with_meta_results "a"
      = some (some (Except.ok (some ewmExample))) :=
  ⟨(timeout_resolves_pending_preserves_terminal
      ⟨some "dna", some "alice", [("a", none)]⟩ "a").1 (by decide),
   (timeout_resolves_pending_preserves_terminal terminalExampleState "a").2
      (Except.ok (some ewmExample)) (by decide)⟩

/-- Claim C2 counterexample: a repeated `GetEntry` for the same address is
a later action of the same correlation key that does change a stored
terminal result — `reduce_get_entry` unconditionally reinserts, resetting
the terminal value to pending. -/
theorem reduce_get_entry_overwrites_terminal :
    lookupKey terminalExampleState.get_entry_with_meta_results "a"
      = some (some (Except.ok (some ewmExample))) ∧
    lookupKey (reduce_get_entry terminalExampleState
        "a").get_entry_with_meta_results "a" = some none ∧
    lookupKey (reduce_get_entry terminalExampleState
        "a").get_entry_with_meta_results "a" ≠
      lookupKey terminalExampleState.get_entry_with_meta_results "a" := by
  refine ⟨rfl, ?_, ?_⟩ <;> decide

/-- Claim C2 amended: once the result for a key is terminal, the
`GetEntryTimeout` reducer never changes it (for any timed-out address),
and the `GetEntry` reducer never changes it for a *different* address; a
repeated `GetEntry` for the same address, however, deliberately resets the
key to a fresh request. -/
theorem reducers_preserve_terminal_amended (s : NetworkState)
    (a b : Address) (r : Except HolochainError (Option EntryWithMeta))
    (hterm : lookupKey s.get_entry_with_meta_results b = some (some r)) :
    lookupKey (reduce_get_entry_timeout s a).get_entry_with_meta_results b
      = some (some r) ∧
    (b ≠ a →
      lookupKey (reduce_get_entry s a).get_entry_with_meta_results b
        = some (some r)) := by
  constructor
  · cases hl : lookupKey s.get_entry_with_meta_results a with
    | none => simp [reduce_get_entry_timeout, hl, hterm]
    | some v =>
        cases v with
        | none =>
            have hba : b ≠ a := fun h => by simp [h, hl] at hterm
            simp [reduce_get_entry_timeout, hl,
              lookupKey_insertKey_other _ _ _ _ hba, hterm]
        | some r' => simp [reduce_get_entry_timeout, hl, hterm]
  · intro hba
    simp [reduce_get_entry, lookupKey_insertKey_other _ _ _ _ hba, hterm]

/-- Claim C2 amended, at a concrete input: the terminal result for `"a"`
survives a `GetEntryTimeout` for `"b"` and a `GetEntry` for `"b"`. -/
theorem reducers_preserve_terminal_amended_at_input :
    lookupKey (reduce_get_entry_timeout terminalExampleState
        "b").get_entry_with_meta_results "a"
      = some (some (Except.ok (some ewmExample))) ∧
    ("a" ≠ "b" →
      lookupKey (reduce_get_entry terminalExampleState
          "b").get_entry_with_meta_results "a"
        = some (some (Except.ok (some ewmExample)))) :=
  reducers_preserve_terminal_amended terminalExampleState "b" "a"
    (Except.ok (some ewmExample)) (by decide)

/-- Claim C3: `GetEntry` on an uninitialized network state stores the
immediately terminal `Generic("Network not initialized")` error, and on an
initialized state stores the pending marker (`Some(None)`). -/
theorem get_entry_uninitialized_error_initialized_pending
    (s : NetworkState) (a : Address) :
    ((s.dna_address = none ∨ s.agent_id = none) →
      lookupKey (reduce_get_entry s a).get_entry_with_meta_results a
        = some (some (Except.error
            (HolochainError.ErrorGeneric "Network not initialized")))) ∧
    (s.dna_address.isSome = true → s.agent_id.isSome = true →
      lookupKey (reduce_get_entry s a).get_entry_with_meta_results a
        = some none) := by
  constructor
  · intro h
    have hinit : s.initialized
        = Except.error (.ErrorGeneric "Network not initialized") := by
      rcases h with h | h <;> simp [NetworkState.initialized, h]
    simp [reduce_get_entry, inner, hinit, lookupKey_insertKey_self]
  · intro h1 h2
    have hinit : s.initialized = Except.ok () := by
      simp [NetworkState.initialized, h1, h2]
    simp [reduce_get_entry, inner, hinit, send, lookupKey_insertKey_self]

/-- Claim C3 at concrete inputs: an uninitialized state (no agent id)
yields the terminal error, an initialized one the pending marker. -/
theorem get_entry_uninitialized_error_initialized_pending_at_input :
    lookupKey (reduce_get_entry ⟨some "dna", none, []⟩
        "addr").get_entry_with_meta_results "addr"
      = some (some (Except.error
          (HolochainError.ErrorGeneric "Network not initialized"))) ∧
    lookupKey (reduce_get_entry ⟨some "dna", some "alice", []⟩
        "addr").get_entry_with_meta_results "addr" = some none :=
  ⟨(get_entry_uninitialized_error_initialized_pending
      ⟨some "dna", none, []⟩ "addr").1 (Or.inr rfl),
   (get_entry_uninitialized_error_initialized_pending
      ⟨some "dna", some "alice", []⟩ "addr").2 rfl rfl⟩

/-- Claim C10: `GetEntryTimeout` for an address that was never requested
leaves the network state entirely unchanged. -/
theorem timeout_never_requested_frame (s : NetworkState) (a : Address)
    (h : lookupKey s.get_entry_with_meta_results a = none) :
    reduce_get_entry_timeout s a = s := by
  simp [reduce_get_entry_timeout, h]

/-- Claim C10 at a concrete input: a timeout for an unrequested address on
an initialized state with an empty results map is the identity. -/
theorem timeout_never_requested_frame_at_input :
    reduce_get_entry_timeout ⟨some "dna", some "alice", []⟩ "addr"
      = ⟨some "dna", some "alice", []⟩ :=
  timeout_never_requested_frame ⟨some "dna", some "alice", []⟩ "addr" rfl

/-! ## Theorems about the EAV store -/

/-- A character that is alphanumeric or the underscore (code point 95) is
not in the reserved character class of the attribute regex. -/
theorem alphanum_or_underscore_not_reserved (c : Char)
    (h : c.isAlphanum = true ∨ c = Char.ofNat 95) :
    reservedAttributeChars.contains c = false := by
  rcases h with halpha | hund
  · by_contra hcon
    have hmem : c ∈ reservedAttributeChars := by
      have := Bool.not_eq_false _ |>.mp hcon
      simpa using this
    simp only [reservedAttributeChars, List.mem_cons, List.mem_singleton,
      List.not_mem_nil, or_false] at hmem
    rcases hmem with h | h | h | h | h | h | h | h | h | h | h <;>
      subst h <;> exact absurd halpha (by decide)
  · subst hund
    decide

theorem validate_attribute_of_any_true (attr : Attribute)
    (hany : attr.data.any
      (fun c => reservedAttributeChars.contains c) = true) :
    validate_attribute attr
      = Except.error (.ErrorGeneric "Attribute name invalid") := by
  simp only [validate_attribute, hany, Bool.not_true]
  rfl

theorem validate_attribute_of_any_false (attr : Attribute)
    (hany : attr.data.any
      (fun c => reservedAttributeChars.contains c) = false) :
    validate_attribute attr = Except.ok () := by
  simp only [validate_attribute, hany, Bool.not_false]
  rfl

/-- Claim C7: `EntityAttributeValue::new` fails for every attribute
containing at least one of the reserved characters
`/ : * ? < > " ' \ | +`, and succeeds for every attribute of only
alphanumerics and underscores. -/
theorem eav_new_attribute_validation (entity : Entity) (attr : Attribute)
    (value : Value) :
    ((∃ c ∈ attr.data, c ∈ reservedAttributeChars) →
      EntityAttributeValue.new entity attr value
        = Except.error (.ErrorGeneric "Attribute name invalid")) ∧
    ((∀ c ∈ attr.data, c.isAlphanum = true ∨ c = Char.ofNat 95) →
      EntityAttributeValue.new entity attr value
        = Except.ok ⟨entity, attr, value⟩) := by
  constructor
  · rintro ⟨c, hc, hres⟩
    have hany : attr.data.any
        (fun c => reservedAttributeChars.contains c) = true :=
      List.any_eq_true.2 ⟨c, hc, by simpa using hres⟩
    simp [EntityAttributeValue.new, validate_attribute_of_any_true attr hany]
  · intro hok
    have hany : attr.data.any
        (fun c => reservedAttributeChars.contains c) = false := by
      rw [List.any_eq_false]
      intro c hc
      rw [alphanum_or_underscore_not_reserved c (hok c hc)]
      exact Bool.false_ne_true
    simp [EntityAttributeValue.new, validate_attribute_of_any_false attr hany]

/-- Claim C7 at concrete inputs: `"link_/"` is rejected, `"abc_123"` is
accepted. -/
theorem eav_new_attribute_validation_at_input :
    EntityAttributeValue.new "e" "link_/" "v"
      = Except.error (.ErrorGeneric "Attribute name invalid") ∧
    EntityAttributeValue.new "e" "abc_123" "v"
      = Except.ok ⟨"e", "abc_123", "v"⟩ :=
  ⟨(eav_new_attribute_validation "e" "link_/" "v").1
      ⟨Char.ofNat 47, by decide, by decide⟩,
   (eav_new_attribute_validation "e" "abc_123" "v").2 (by decide)⟩

/-- Claim C6: `fetch_eav` returns exactly the stored triples matching
every supplied constraint (an absent parameter constrains nothing), and in
particular, after adding the single triple (e,a,v) to an empty store, each
of the five constraint combinations returns exactly that triple. -/
theorem fetch_eav_exact_matches
    (s : ExampleEntityAttributeValueStorageNonSync)
    (ent : Option Entity) (att : Option Attribute) (val : Option Value)
    (t : EntityAttributeValue) (e : Entity) (a : Attribute) (v : Value) :
    (∃ l, unthreadable_fetch_eav s ent att val = Except.ok l ∧
      (t ∈ l ↔ t ∈ s.storage ∧
        (∀ e₀, ent = some e₀ → t.entity = e₀) ∧
        (∀ a₀, att = some a₀ → t.attr = a₀) ∧
        (∀ v₀, val = some v₀ → t.value = v₀))) ∧
    (let trip : EntityAttributeValue := ⟨e, a, v⟩
     let store := (unthreadable_add_eav ⟨[]⟩ trip).1
     unthreadable_fetch_eav store (some e) (some a) (some v)
        = Except.ok [trip] ∧
     unthreadable_fetch_eav store none (some a) (some v)
        = Except.ok [trip] ∧
     unthreadable_fetch_eav store (some e) none (some v)
        = Except.ok [trip] ∧
     unthreadable_fetch_eav store (some e) (some a) none
        = Except.ok [trip] ∧
     unthreadable_fetch_eav store none none none = Except.ok [trip]) := by
  constructor
  · refine ⟨_, rfl, ?_⟩
    cases ent <;> cases att <;> cases val <;>
      simp [List.mem_filter, and_assoc, and_comm, and_left_comm]
  · refine ⟨?_, ?_, ?_, ?_, ?_⟩ <;>
      simp [unthreadable_add_eav, unthreadable_fetch_eav, List.filter]

/-- Claim C8: `add_eav` is idempotent — it returns success, adding an
already-stored triple leaves the store unchanged, adding the same triple
twice equals adding it once, and the store stays duplicate-free. -/
theorem add_eav_idempotent (s : ExampleEntityAttributeValueStorageNonSync)
    (eav : EntityAttributeValue) :
    (unthreadable_add_eav s eav).2 = Except.ok () ∧
    (eav ∈ s.storage → (unthreadable_add_eav s eav).1 = s) ∧
    (unthreadable_add_eav (unthreadable_add_eav s eav).1 eav).1
      = (unthreadable_add_eav s eav).1 ∧
    (s.storage.Nodup → ((unthreadable_add_eav s eav).1).storage.Nodup) := by
  refine ⟨rfl, ?_, ?_, ?_⟩
  · intro h
    simp [unthreadable_add_eav, h]
  · by_cases h : eav ∈ s.storage <;>
      simp [unthreadable_add_eav, h]
  · intro hnd
    by_cases h : eav ∈ s.storage
    · simpa [unthreadable_add_eav, h] using hnd
    · simp [unthreadable_add_eav, h, List.nodup_append, hnd,
        List.disjoint_singleton]

/-- Claim C6 at a concrete input: after adding ("e","a","v") to an empty
store, the fully unconstrained fetch returns exactly that triple. -/
theorem fetch_eav_exact_matches_at_input :
    unthreadable_fetch_eav (unthreadable_add_eav ⟨[]⟩ ⟨"e", "a", "v"⟩).1
        none none none = Except.ok [⟨"e", "a", "v"⟩] :=
  ((fetch_eav_exact_matches ⟨[]⟩ none none none ⟨"e", "a", "v"⟩
      "e" "a" "v").2).2.2.2.2

/-- Claim C8 at a concrete input: adding an already-stored triple leaves
the store unchanged. -/
theorem add_eav_idempotent_at_input :
    (unthreadable_add_eav ⟨[⟨"e", "a", "v"⟩]⟩ ⟨"e", "a", "v"⟩).1
      = ⟨[⟨"e", "a", "v"⟩]⟩ :=
  (add_eav_idempotent ⟨[⟨"e", "a", "v"⟩]⟩ ⟨"e", "a", "v"⟩).2.1 (by decide)

/-! ## Theorems about the validation-package builder -/

/-- A header of `all_public_chain_headers` is publishable and comes from
the chain. -/
theorem mem_all_public_chain_headers {chain : List ChainHeader}
    (h : ChainHeader) (hm : h ∈ all_public_chain_headers chain) :
    h.entry_type.can_publish = true ∧ h ∈ chain := by
  have := List.mem_filter.mp hm
  exact ⟨this.2, this.1⟩

/-- An entry of `all_public_chain_entries` is the CAS content of some
publishable header of the chain. -/
theorem mem_all_public_chain_entries {chain : List ChainHeader}
    {cas : List (Address × Entry)} (e : Entry)
    (hm : e ∈ all_public_chain_entries chain cas) :
    ∃ h, h ∈ chain ∧ h.entry_type.can_publish = true ∧
      lookupKey cas h.entry_address = some e := by
  rcases List.mem_filterMap.mp hm with ⟨h, hh, hlook⟩
  have := List.mem_filter.mp hh
  exact ⟨h, this.1, this.2, hlook⟩

/-- Claim C4: for each `ValidationPackageDefinition` variant the built
package has exactly the corresponding optional fields populated — header
always present, entries present iff `ChainEntries`/`ChainFull`, headers
present iff `ChainHeaders`/`ChainFull`, custom present iff `Custom` — and
every included entry/header comes from a chain header whose entry type
permits publication. -/
theorem validation_package_shape (dna : List (String × String))
    (entry : Entry) (z : String) (entry_header : ChainHeader)
    (chain : List ChainHeader) (cas : List (Address × Entry))
    (def_ : ValidationPackageDefinition)
    (hz : lookupKey dna entry.entry_type.name = some z) :
    build_validation_package dna entry entry_header chain cas
        (CallbackResult.ValidationPackageDefinition def_)
      = Except.ok (assemble_validation_package entry_header chain cas def_) ∧
    (assemble_validation_package entry_header chain cas def_).chain_header
      = some entry_header ∧
    ((assemble_validation_package entry_header chain cas
        def_).source_chain_entries.isSome
      ↔ (def_ = .ChainEntries ∨ def_ = .ChainFull)) ∧
    ((assemble_validation_package entry_header chain cas
        def_).source_chain_headers.isSome
      ↔ (def_ = .ChainHeaders ∨ def_ = .ChainFull)) ∧
    (∀ str, (assemble_validation_package entry_header chain cas
        def_).custom = some str ↔ def_ = .Custom str) ∧
    (∀ hs, (assemble_validation_package entry_header chain cas
        def_).source_chain_headers = some hs →
      ∀ h ∈ hs, h.entry_type.can_publish = true ∧ h ∈ chain) ∧
    (∀ es, (assemble_validation_package entry_header chain cas
        def_).source_chain_entries = some es →
      ∀ e ∈ es, ∃ h, h ∈ chain ∧ h.entry_type.can_publish = true ∧
        lookupKey cas h.entry_address = some e) := by
  refine ⟨by simp [build_validation_package, hz], ?_, ?_, ?_, ?_, ?_, ?_⟩
  · cases def_ <;> rfl
  · cases def_ <;>
      simp [assemble_validation_package, ValidationPackage.only_header]
  · cases def_ <;>
      simp [assemble_validation_package, ValidationPackage.only_header]
  · cases def_ <;>
      simp [assemble_validation_package, ValidationPackage.only_header]
  · cases def_ with
    | ChainHeaders =>
        intro hs heq h hm
        obtain rfl := Option.some.inj heq
        exact mem_all_public_chain_headers h hm
    | ChainFull =>
        intro hs heq h hm
        obtain rfl := Option.some.inj heq
        exact mem_all_public_chain_headers h hm
    | Entry => exact fun hs heq => Option.noConfusion heq
    | ChainEntries => exact fun hs heq => Option.noConfusion heq
    | Custom s => exact fun hs heq => Option.noConfusion heq
  · cases def_ with
    | ChainEntries =>
        intro es heq e he
        obtain rfl := Option.some.inj heq
        exact mem_all_public_chain_entries e he
    | ChainFull =>
        intro es heq e he
        obtain rfl := Option.some.inj heq
        exact mem_all_public_chain_entries e he
    | Entry => exact fun es heq => Option.noConfusion heq
    | ChainHeaders => exact fun es heq => Option.noConfusion heq
    | Custom s => exact fun es heq => Option.noConfusion heq

def headerA : ChainHeader := ⟨⟨"typeA", true⟩, "addrA"⟩

def headerB : ChainHeader := ⟨⟨"typeB", false⟩, "addrB"⟩

def entryA : Entry := Entry.App ⟨"typeA", true⟩ "contentA"

/-- Claim C4 at a concrete input: a `ChainFull` package over a chain with
one publishable and one private header. -/
theorem validation_package_shape_at_input :
    build_validation_package [("typeA", "test_zome")] entryA headerA
        [headerA, headerB] [("addrA", entryA)]
        (CallbackResult.ValidationPackageDefinition .ChainFull)
      = Except.ok (assemble_validation_package headerA [headerA, headerB]
          [("addrA", entryA)] .ChainFull) :=
  (validation_package_shape [("typeA", "test_zome")] entryA "test_zome"
    headerA [headerA, headerB] [("addrA", entryA)] .ChainFull (by decide)).1

/-- Claim C5: when the entry type resolves to no zome,
`build_validation_package` is an immediately failed future carrying a
`ValidationFailed` error that names the unknown entry type; the result is
the same for every chain, CAS and callback answer, so no chain traversal,
background work or dispatch contributes to it. -/
theorem validation_package_unknown_entry_type (dna : List (String × String))
    (entry : Entry) (entry_header : ChainHeader) (chain : List ChainHeader)
    (cas : List (Address × Entry)) (callback_result : CallbackResult)
    (h : lookupKey dna entry.entry_type.name = none) :
    build_validation_package dna entry entry_header chain cas callback_result
      = Except.error (.ValidationFailed
          ("Unknown entry type: " ++ squote ++ entry.entry_type.name
            ++ squote)) := by
  simp [build_validation_package, h]

/-- Claim C5 at a concrete input: an entry of a type absent from the DNA
fails immediately, with arbitrary chain, CAS and callback answer. -/
theorem validation_package_unknown_entry_type_at_input :
    build_validation_package [("typeA", "test_zome")]
        (Entry.App ⟨"mystery", true⟩ "x") headerA [headerA] [("addrA", entryA)]
        CallbackResult.NotImplemented
      = Except.error (.ValidationFailed
          ("Unknown entry type: " ++ squote ++ "mystery" ++ squote)) :=
  validation_package_unknown_entry_type [("typeA", "test_zome")]
    (Entry.App ⟨"mystery", true⟩ "x") headerA [headerA] [("addrA", entryA)]
    CallbackResult.NotImplemented (by decide)

/-! ## Theorems about the hold-link workflow -/

def linkAddExample : LinkAddData := ⟨"base", "target", "tag"⟩

/-- Claim C9 counterexample: when the package fetch succeeds with no
package, the workflow's error message is "Could not get validation package
from source", not "could not obtain validation package from source" as
claimed. -/
theorem hold_link_missing_package_message_differs :
    hold_link_workflow (Entry.LinkAdd linkAddExample) (Except.ok none)
        (Except.ok ()) (Except.ok ())
      = Except.error (.ErrorGeneric
          "Could not get validation package from source") ∧
    "Could not get validation package from source"
      ≠ "could not obtain validation package from source" :=
  ⟨rfl, by decide⟩

/-- Claim C9 amended: a successful fetch that yields no package makes the
workflow fail with the terminal error "Could not get validation package
from source", whatever the validation and commit stages would return (so
neither runs' result matters); an input entry that is not a `LinkAdd`
aborts with the generic wrong-kind error whatever every later stage would
return. -/
theorem hold_link_missing_package_and_wrong_kind (link_add : LinkAddData)
    (t : EntryType) (content : String)
    (g : Except HolochainError (Option ValidationPackage))
    (validate_result add_link_result : Except HolochainError Unit) :
    hold_link_workflow (Entry.LinkAdd link_add) (Except.ok none)
        validate_result add_link_result
      = Except.error (.ErrorGeneric
          "Could not get validation package from source") ∧
    hold_link_workflow (Entry.App t content) g validate_result
        add_link_result
      = Except.error (.ErrorGeneric
          "hold_link_workflow expects entry to be an Entry::LinkAdd") :=
  ⟨rfl, rfl⟩

end Holochain
